import Mathlib

/-!
# Verification of the printfix fix-orchestration core

Shallow embedding of the orchestration-relevant modules of the printfix
repository, together with proofs settling the frozen claims about them.

Embedded modules:
* `app/orchestration/convergence.py` — `should_stop`
* `app/orchestration/planner.py` — `plan_fixes_rule_based` (with an explicit
  params heap, because pydantic `model_copy()` is a shallow copy and the
  planner mutates `action.params` in place)
* `app/orchestration/executor.py` — `execute_fix`, `execute_plan`
* `app/core/integrity.py` — `validate_after_fix` and the backup helpers
* `app/worker/job_state.py` — `JobStateManager.create_job` / `set_state`
  over a Redis-hash model with TTL
* `app/core/retry.py` — `with_retry`
* `app/core/rate_limit.py` — `RateLimiter.check` over a sorted-set model

Python `int` fields are modelled as `Int`, timestamps and delays as `Rat`,
file contents as `String` (byte-identity = string equality).  External
collaborators (fix tools, integrity structure checks, AI calls, rendering)
are parameters of the embedding, as the spec treats them as opaque services.
-/

namespace Printfix

/-! ## Convergence detector (`app/orchestration/convergence.py`) -/

/-- Structure `ConvergenceState` from `app/schema/orchestration.py`: snapshot of issue
counts at one iteration boundary.  All counts are Python ints. -/
structure ConvergenceState where
  iteration : Int
  issues_before : Int
  issues_after : Int
  critical_before : Int
  critical_after : Int
  warning_before : Int := 0
  warning_after : Int := 0
  fixes_applied : Int
  fixes_failed : Int
  used_fallback : Bool := false
  deriving Repr, DecidableEq

/-- Function `should_stop` from `app/orchestration/convergence.py`.
`current = states[-1]` is the last record, `prev = states[-2]` (only read
when `len(states) >= 2`).  Returns `(should_stop, reason)`. -/
def should_stop (states : List ConvergenceState) (max_iterations : Int)
    (fallback_available : Bool := false) : Bool × String :=
  match states.getLast? with
  | none => (false, "")
  | some current =>
    -- 1. Max iterations reached — always stop
    if current.iteration ≥ max_iterations then
      (true, "max iterations reached (" ++ toString max_iterations ++ ")")
    -- 2. No critical or warning issues remain → print-ready
    else if current.issues_after = 0 then
      (true, "all issues resolved")
    else if current.critical_after = 0 ∧ current.warning_after = 0 then
      (true, "no critical or warning issues remain")
    -- 3. All planned fixes failed → no progress possible
    --    UNLESS PDF fallback tools are available to try next
    else if current.fixes_applied = 0 ∧ current.fixes_failed > 0 then
      if fallback_available then (false, "")
      else (true, "all fixes failed, no progress possible")
    -- 4. No fixes were planned (empty plan)
    else if current.fixes_applied = 0 ∧ current.fixes_failed = 0 then
      (true, "no applicable fixes found")
    -- 5. Issue count stalled or worsened (compare to previous iteration)
    --    UNLESS PDF fallback tools are available to try next
    else
      match states.dropLast.getLast? with
      | none => (false, "")
      | some prev =>
        let prev_important := prev.critical_after + prev.warning_after
        let curr_important := current.critical_after + current.warning_after
        if curr_important ≥ prev_important then
          let total_increased := current.issues_after > prev.issues_after
          let important_decreased := curr_important < prev_important
          if total_increased ∧ ¬important_decreased then
            if fallback_available then (false, "")
            else
              (true, "important issues did not decrease (C+W: "
                ++ toString prev_important ++ " → " ++ toString curr_important ++ ")")
          else (false, "")
        else (false, "")

/-! ## Association lists (Python dicts / Redis hashes / the filesystem) -/

/-- Lookup in an association list (first match). -/
def assocGet {β : Type} (l : List (String × β)) (k : String) : Option β :=
  match l with
  | [] => none
  | (k', v) :: rest => if k' = k then some v else assocGet rest k

/-- Python dict item assignment: overwrite the first binding of `k` in place
(preserving its position, as Python dicts preserve insertion order), or append
a new binding at the end. -/
def assocSet {β : Type} (l : List (String × β)) (k : String) (v : β) :
    List (String × β) :=
  match l with
  | [] => [(k, v)]
  | (k', v') :: rest => if k' = k then (k, v) :: rest else (k', v') :: assocSet rest k v

/-- Remove the binding of `k` (file deletion / `dict.pop`). -/
def assocRemove {β : Type} (l : List (String × β)) (k : String) :
    List (String × β) :=
  match l with
  | [] => []
  | (k', v) :: rest =>
    if k' = k then assocRemove rest k else (k', v) :: assocRemove rest k

/-- Stable insertion into a list sorted by the (total) boolean relation `le`. -/
def orderedInsertBy {α : Type} (le : α → α → Bool) (a : α) :
    List α → List α
  | [] => [a]
  | b :: l => if le a b then a :: b :: l else b :: orderedInsertBy le a l

/-- Stable insertion sort — the model of the stable Python `list.sort(key=...)`. -/
def insertionSortBy {α : Type} (le : α → α → Bool) : List α → List α
  | [] => []
  | a :: l => orderedInsertBy le a (insertionSortBy le l)

/-! ## Fix planner (`app/orchestration/planner.py`)

pydantic `model_copy()` is a **shallow** copy: the copy shares the `params`
dict object with its module-level template.  The embedding therefore separates
actions from their parameter dicts: an action holds a reference
(`paramsRef`) into a heap of dicts, `model_copy` shares the reference,
`action.params = {...}` allocates a fresh cell, and
`action.params["from_font"] = ...` updates the heap cell in place. -/

/-- A JSON-serializable parameter value as found in the tool
parameter dicts of the planner.  `json.dumps` distinguishes ints from floats, so they get
separate constructors; a float literal is carried as its decimal notation
`mantissa × 10^(-exp)` exactly as written in the source (all float literals
in `planner.py` are short decimals, represented exactly). -/
inductive PVal where
  | pint (n : Int)
  | pfloat (mantissa : Int) (exp : Nat)
  | pstr (s : String)
  | pbool (b : Bool)
  | pnone
  deriving DecidableEq, Repr

/-- Code-point lexicographic comparison of character lists. -/
def charsLt : List Char → List Char → Bool
  | [], [] => false
  | [], _ :: _ => true
  | _ :: _, [] => false
  | c :: cs, d :: ds =>
    if c.val.toNat < d.val.toNat then true
    else if d.val.toNat < c.val.toNat then false
    else charsLt cs ds

/-- Code-point lexicographic less-than on strings (Python string
comparison), as a computable Bool. -/
def strLt (a b : String) : Bool :=
  charsLt a.data b.data

/-- A parameter dict, in insertion order. -/
abbrev Params := List (String × PVal)

/-- A heap of parameter dicts; a `FixAction` refers to its dict by key. -/
abbrev ParamsHeap := List (String × Params)

/-- Structure `FixAction` from `app/schema/orchestration.py` as used by the planner:
`params` is represented by a reference into the params heap.  The free-text
`reasoning` field is never read by any code under verification and is
omitted. -/
structure PFixAction where
  tool_name : String
  paramsRef : String
  target_issues : List String
  is_fallback : Bool := false
  deriving DecidableEq, Repr

/-- Margin-style params `{top, bottom, left, right}` with a common value. -/
def marginParams (v : PVal) : Params :=
  [("top", v), ("bottom", v), ("left", v), ("right", v)]

/-- Default `adjust_paragraph_indents` params (all values `0.5`). -/
def indentParams : Params :=
  [("max_left_inches", .pfloat 5 1), ("max_right_inches", .pfloat 5 1),
    ("max_first_line_inches", .pfloat 5 1)]

/-- The module-level template dicts: one heap cell per `FixAction` template
constructed at import time in `planner.py` (each template owns its dict). -/
def templateHeap : ParamsHeap :=
  [("docx.margin_violation.0", marginParams (.pfloat 75 2)),
    ("docx.inconsistent_margins.0", marginParams (.pfloat 75 2)),
    ("docx.clipped_content.0", marginParams (.pfloat 5 1)),
    ("docx.clipped_content.1", indentParams),
    ("docx.clipped_content.2", []),
    ("docx.text_overflow.0", []),
    ("docx.text_overflow.1", indentParams),
    ("docx.table_overflow.0", []),
    ("docx.table_overflow.1", [("table_index", .pint 0), ("max_font_size_pt", .pfloat 90 1)]),
    ("docx.small_font.0", [("min_size_pt", .pfloat 100 1)]),
    ("docx.wrong_orientation.0", [("orientation", .pstr "landscape")]),
    ("docx.blank_page.0", []),
    ("docx.bad_page_break.0", [("strategy", .pstr "remove_consecutive")]),
    ("docx.page_size_mismatch.0", [("width", .pfloat 827 2), ("height", .pfloat 1169 2)]),
    ("docx.non_embedded_font.0", [("from_font", .pstr ""), ("to_font", .pstr "Arial")]),
    ("docx.image_overflow.0", [("max_width_pct", .pfloat 1000 1), ("max_height_pct", .pfloat 900 1)]),
    ("docx.inconsistent_indent.0", indentParams),
    ("fb.margin_violation.0", marginParams (.pfloat 25 2)),
    ("fb.inconsistent_margins.0", marginParams (.pfloat 25 2)),
    ("fb.clipped_content.0", [("scale_factor", .pfloat 9 1)]),
    ("fb.text_overflow.0", [("scale_factor", .pfloat 92 2)]),
    ("fb.table_overflow.0", [("scale_factor", .pfloat 85 2)]),
    ("fb.wrong_orientation.0", [("pages", .pnone), ("angle", .pint 90)]),
    ("fb.image_overflow.0", [("scale_factor", .pfloat 9 1)]),
    ("fb.inconsistent_indent.0", [("scale_factor", .pfloat 92 2)]),
    ("pdf.margin_violation.0", marginParams (.pfloat 25 2)),
    ("pdf.inconsistent_margins.0", marginParams (.pfloat 25 2)),
    ("pdf.clipped_content.0", [("scale_factor", .pfloat 9 1)]),
    ("pdf.text_overflow.0", [("scale_factor", .pfloat 92 2)]),
    ("pdf.table_overflow.0", [("scale_factor", .pfloat 85 2)]),
    ("pdf.wrong_orientation.0", [("pages", .pnone), ("angle", .pint 90)]),
    ("pdf.rgb_colorspace.0", [("target_colorspace", .pstr "cmyk")]),
    ("pdf.low_dpi_image.0", [("min_dpi", .pint 150)]),
    ("xlsx.margin_violation.0", marginParams (.pfloat 75 2)),
    ("xlsx.text_overflow.0",
      [("orientation", .pstr "portrait"), ("paper_size", .pint 1), ("fit_to_page", .pbool true)]),
    ("xlsx.table_overflow.0", [("shrink_margins", .pbool true)]),
    ("xlsx.wrong_orientation.0", [("shrink_margins", .pbool true)]),
    ("pptx.slide_size_mismatch.0", [("width", .pfloat 100 1), ("height", .pfloat 75 1)]),
    ("pptx.small_font.0", [("min_size_pt", .pfloat 100 1)]),
    ("pptx.text_overflow.0", [("min_size_pt", .pfloat 100 1)])]

/-- Map `_DOCX_ISSUE_MAP`. -/
def docxIssueMap : String → Option (List PFixAction)
  | "margin_violation" =>
    some [⟨"set_margins", "docx.margin_violation.0", ["margin_violation"], false⟩]
  | "inconsistent_margins" =>
    some [⟨"set_margins", "docx.inconsistent_margins.0", ["inconsistent_margins"], false⟩]
  | "clipped_content" =>
    some [⟨"set_margins", "docx.clipped_content.0", ["clipped_content"], false⟩,
      ⟨"adjust_paragraph_indents", "docx.clipped_content.1", ["clipped_content"], false⟩,
      ⟨"auto_fit_tables", "docx.clipped_content.2", ["clipped_content"], false⟩]
  | "text_overflow" =>
    some [⟨"auto_fit_tables", "docx.text_overflow.0", ["text_overflow"], false⟩,
      ⟨"adjust_paragraph_indents", "docx.text_overflow.1", ["text_overflow"], false⟩]
  | "table_overflow" =>
    some [⟨"auto_fit_tables", "docx.table_overflow.0", ["table_overflow"], false⟩,
      ⟨"resize_table_text", "docx.table_overflow.1", ["table_overflow"], false⟩]
  | "small_font" =>
    some [⟨"adjust_font_size", "docx.small_font.0", ["small_font"], false⟩]
  | "wrong_orientation" =>
    some [⟨"set_orientation", "docx.wrong_orientation.0", ["wrong_orientation"], false⟩]
  | "blank_page" =>
    some [⟨"remove_blank_pages", "docx.blank_page.0", ["blank_page"], false⟩]
  | "bad_page_break" =>
    some [⟨"fix_page_breaks", "docx.bad_page_break.0", ["bad_page_break"], false⟩]
  | "page_size_mismatch" =>
    some [⟨"set_page_size", "docx.page_size_mismatch.0", ["page_size_mismatch"], false⟩]
  | "non_embedded_font" =>
    some [⟨"replace_font", "docx.non_embedded_font.0", ["non_embedded_font"], false⟩]
  | "image_overflow" =>
    some [⟨"resize_images_to_fit", "docx.image_overflow.0", ["image_overflow"], false⟩]
  | "inconsistent_indent" =>
    some [⟨"adjust_paragraph_indents", "docx.inconsistent_indent.0", ["inconsistent_indent"], false⟩]
  | _ => none

/-- Map `_DOCX_TO_PDF_FALLBACK` (every template has `is_fallback=True`). -/
def docxToPdfFallback : String → Option (List PFixAction)
  | "margin_violation" =>
    some [⟨"pdf_crop_margins", "fb.margin_violation.0", ["margin_violation"], true⟩]
  | "inconsistent_margins" =>
    some [⟨"pdf_crop_margins", "fb.inconsistent_margins.0", ["inconsistent_margins"], true⟩]
  | "clipped_content" =>
    some [⟨"pdf_scale_content", "fb.clipped_content.0", ["clipped_content"], true⟩]
  | "text_overflow" =>
    some [⟨"pdf_scale_content", "fb.text_overflow.0", ["text_overflow"], true⟩]
  | "table_overflow" =>
    some [⟨"pdf_scale_content", "fb.table_overflow.0", ["table_overflow"], true⟩]
  | "wrong_orientation" =>
    some [⟨"pdf_rotate_pages", "fb.wrong_orientation.0", ["wrong_orientation"], true⟩]
  | "image_overflow" =>
    some [⟨"pdf_scale_content", "fb.image_overflow.0", ["image_overflow"], true⟩]
  | "inconsistent_indent" =>
    some [⟨"pdf_scale_content", "fb.inconsistent_indent.0", ["inconsistent_indent"], true⟩]
  | _ => none

/-- Map `_PDF_ISSUE_MAP`. -/
def pdfIssueMap : String → Option (List PFixAction)
  | "margin_violation" =>
    some [⟨"pdf_crop_margins", "pdf.margin_violation.0", ["margin_violation"], false⟩]
  | "inconsistent_margins" =>
    some [⟨"pdf_crop_margins", "pdf.inconsistent_margins.0", ["inconsistent_margins"], false⟩]
  | "clipped_content" =>
    some [⟨"pdf_scale_content", "pdf.clipped_content.0", ["clipped_content"], false⟩]
  | "text_overflow" =>
    some [⟨"pdf_scale_content", "pdf.text_overflow.0", ["text_overflow"], false⟩]
  | "table_overflow" =>
    some [⟨"pdf_scale_content", "pdf.table_overflow.0", ["table_overflow"], false⟩]
  | "wrong_orientation" =>
    some [⟨"pdf_rotate_pages", "pdf.wrong_orientation.0", ["wrong_orientation"], false⟩]
  | "rgb_colorspace" =>
    some [⟨"convert_colorspace", "pdf.rgb_colorspace.0", ["rgb_colorspace"], false⟩]
  | "low_dpi_image" =>
    some [⟨"check_image_dpi", "pdf.low_dpi_image.0", ["low_dpi_image"], false⟩]
  | _ => none

/-- Map `_XLSX_ISSUE_MAP`. -/
def xlsxIssueMap : String → Option (List PFixAction)
  | "margin_violation" =>
    some [⟨"set_xlsx_margins", "xlsx.margin_violation.0", ["margin_violation"], false⟩]
  | "text_overflow" =>
    some [⟨"set_xlsx_page_setup", "xlsx.text_overflow.0", ["text_overflow"], false⟩]
  | "table_overflow" =>
    some [⟨"auto_fit_xlsx_columns", "xlsx.table_overflow.0", ["table_overflow"], false⟩]
  | "wrong_orientation" =>
    some [⟨"auto_fit_xlsx_columns", "xlsx.wrong_orientation.0", ["wrong_orientation"], false⟩]
  | _ => none

/-- Map `_PPTX_ISSUE_MAP`. -/
def pptxIssueMap : String → Option (List PFixAction)
  | "slide_size_mismatch" =>
    some [⟨"set_pptx_slide_size", "pptx.slide_size_mismatch.0", ["slide_size_mismatch"], false⟩]
  | "small_font" =>
    some [⟨"adjust_pptx_font_size", "pptx.small_font.0", ["small_font"], false⟩]
  | "text_overflow" =>
    some [⟨"adjust_pptx_font_size", "pptx.text_overflow.0", ["text_overflow"], false⟩]
  | _ => none

/-- Lookup table `_PAGE_SIZES`. -/
def pageSizes : String → Option (PVal × PVal)
  | "a4" => some (.pfloat 827 2, .pfloat 1169 2)
  | "letter" => some (.pfloat 85 1, .pfloat 110 1)
  | _ => none

/-- Function `_severity_passes_filter`. -/
def severityPassesFilter (severity aggressiveness : String) : Bool :=
  if aggressiveness = "aggressive" then true
  else if aggressiveness = "moderate" then
    severity = "critical" || severity = "warning"
  else severity = "critical"

/-- Structure `DiagnosisIssue` from `app/schema/diagnosis.py`, restricted to the fields
the rule-based planner reads (`type`, `severity`, `location`,
`suggested_fix`); `str(issue.type)` and `str(issue.severity)` are the
enum value strings. -/
structure PIssue where
  type : String
  severity : String
  location : Option String := none
  suggested_fix : Option String := none
  deriving DecidableEq, Repr

/-- Structure `DocumentDiagnosis` restricted to the fields the rule-based planner reads:
`pages` is the list of per-page issue lists. -/
structure PDiagnosis where
  job_id : String
  pages : List (List PIssue)
  document_issues : List PIssue
  deriving Repr

/-- Function `_collect_issues`: flatten page issues, then document-level issues. -/
def collectIssues (d : PDiagnosis) : List PIssue :=
  (d.pages.foldl (fun acc p => acc ++ p) []) ++ d.document_issues

/-- Function `_is_editable_format`. -/
def isEditableFormat (file_type : String) : Bool :=
  file_type ∈ [".docx", ".xlsx", ".pptx", ".odt", ".ods", ".odp"]

/-- Tools counted as structural by the final sort of the planner. -/
def structuralTools : List String :=
  ["set_margins", "set_page_size", "set_orientation", "remove_blank_pages",
    "fix_page_breaks", "remove_manual_breaks", "adjust_paragraph_indents",
    "pdf_crop_margins", "pdf_scale_content", "pdf_rotate_pages",
    "set_xlsx_margins", "set_xlsx_page_setup", "auto_fit_xlsx_columns",
    "resize_images_to_fit"]

/-- The sort key of the planner as a boolean total preorder: structural before
content, then non-fallback before fallback, then by tool name
(`actions.sort(key=lambda a: (tier, fallback, a.tool_name))`, a stable
ascending sort). -/
def planOrderLe (a b : PFixAction) : Bool :=
  let ta : Nat := if a.tool_name ∈ structuralTools then 0 else 1
  let tb : Nat := if b.tool_name ∈ structuralTools then 0 else 1
  let fa : Nat := if a.is_fallback then 1 else 0
  let fb : Nat := if b.is_fallback then 1 else 0
  if ta ≠ tb then decide (ta < tb)
  else if fa ≠ fb then decide (fa < fb)
  else strLt a.tool_name b.tool_name || a.tool_name == b.tool_name

/-- Model of `json.dumps(params, sort_keys=True)`: the dedup key serializes the dict
with its keys sorted; two dicts produce the same key string iff their
key-sorted entry lists coincide. -/
def canonParams (ps : Params) : Params :=
  insertionSortBy (fun a b => strLt a.1 b.1 || a.1 == b.1) ps

/-- Mutable state threaded through `plan_fixes_rule_based`: the params heap
(with an allocation counter for `action.params = {...}` rebindings), the
`seen_tools` dedup set, and the accumulated `actions` and `skipped` lists. -/
structure PlanState where
  heap : ParamsHeap
  nextAlloc : Nat
  seen : List (String × Params)
  actions : List PFixAction
  skipped : List String

/-- The body of the inner planner loop `for template in active_map[lookup_key]`
loop: `action = template.model_copy()` (sharing the params dict), the
`set_page_size` params rebinding, the in-place `from_font` mutation, and the
dedup check before appending. -/
def processTemplate (target_page_size : Option String) (issue : PIssue)
    (st : PlanState) (template : PFixAction) : PlanState :=
  let (heap1, nextAlloc1, ref1) :=
    match target_page_size with
    | some tps =>
      if template.tool_name = "set_page_size" ∧ tps ≠ "" then
        let (w, h) := (pageSizes tps).getD (.pfloat 827 2, .pfloat 1169 2)
        let r := "alloc." ++ toString st.nextAlloc
        (assocSet st.heap r [("width", w), ("height", h)],
          st.nextAlloc + 1, r)
      else (st.heap, st.nextAlloc, template.paramsRef)
    | none => (st.heap, st.nextAlloc, template.paramsRef)
  let heap2 :=
    match issue.location with
    | some loc =>
      if template.tool_name = "replace_font" ∧ loc ≠ "" then
        match assocGet heap1 ref1 with
        | some ps => assocSet heap1 ref1 (assocSet ps "from_font" (.pstr loc))
        | none => heap1
      else heap1
    | none => heap1
  let action : PFixAction := { template with paramsRef := ref1 }
  let key : String × Params :=
    (action.tool_name, canonParams ((assocGet heap2 ref1).getD []))
  if key ∈ st.seen then
    { st with heap := heap2, nextAlloc := nextAlloc1 }
  else
    { heap := heap2, nextAlloc := nextAlloc1, seen := st.seen ++ [key],
      actions := st.actions ++ [action], skipped := st.skipped }

/-- The body of the outer planner loop `for issue in all_issues`:
severity filter, fallback routing, `suggested_fix` resolution, the
last-resort fallback, and the template loop. -/
def processIssue (aggressiveness : String) (is_editable : Bool)
    (issue_map : String → Option (List PFixAction))
    (failed_issue_types : List String) (target_page_size : Option String)
    (st : PlanState) (issue : PIssue) : PlanState :=
  let issue_type := issue.type
  if ¬severityPassesFilter issue.severity aggressiveness then
    { st with skipped := st.skipped ++
        [issue_type ++ " (severity " ++ issue.severity ++ " below threshold)"] }
  else
    let use_fallback := is_editable && issue_type ∈ failed_issue_types
      && (docxToPdfFallback issue_type).isSome
    let (active_map, lookup_key) :=
      if use_fallback then (docxToPdfFallback, issue_type)
      else
        let lk := match issue.suggested_fix with
          | some sf => if (issue_map sf).isSome then sf else issue_type
          | none => issue_type
        (issue_map, lk)
    match active_map lookup_key with
    | some templates => templates.foldl (processTemplate target_page_size issue) st
    | none =>
      match (if is_editable then docxToPdfFallback issue_type else none) with
      | some templates => templates.foldl (processTemplate target_page_size issue) st
      | none =>
        { st with skipped := st.skipped ++ [issue_type ++ " (no fix available)"] }

/-- The plan returned by the rule-based planner, with the final params heap
(needed to resolve the shared-params reference of each action). -/
structure FixPlanE where
  job_id : String
  iteration : Int
  actions : List PFixAction
  skipped_issues : List String
  heap : ParamsHeap

/-- Function `plan_fixes_rule_based` from `app/orchestration/planner.py`. -/
def plan_fixes_rule_based (diagnosis : PDiagnosis) (aggressiveness : String)
    (file_type : String) (target_page_size : Option String := none)
    (iteration : Int := 1) (failed_issue_types : List String := []) : FixPlanE :=
  let is_editable := isEditableFormat file_type
  let issue_map :=
    if file_type = ".xlsx" then xlsxIssueMap
    else if file_type = ".pptx" then pptxIssueMap
    else if is_editable then docxIssueMap
    else pdfIssueMap
  let all_issues := collectIssues diagnosis
  let st0 : PlanState := ⟨templateHeap, 0, [], [], []⟩
  let st := all_issues.foldl
    (processIssue aggressiveness is_editable issue_map failed_issue_types
      target_page_size) st0
  let sorted := insertionSortBy planOrderLe st.actions
  ⟨diagnosis.job_id, iteration, sorted, st.skipped, st.heap⟩

/-- Resolve the params of each planned action through the final heap: the
observable `(tool_name, params, is_fallback)` triples of the plan. -/
def resolvedActions (plan : FixPlanE) : List (String × Params × Bool) :=
  plan.actions.map
    (fun a => (a.tool_name, (assocGet plan.heap a.paramsRef).getD [], a.is_fallback))

/-! ## Fix executor (`app/orchestration/executor.py`) and the
backup/restore helpers (`app/core/integrity.py`)

The filesystem is a map from path to file contents (byte-identity =
equality of contents).  Python exceptions are values of `PyExc`; every
statement of the `try` block that can raise produces an `Except` value
which is routed to the model of the corresponding `except` handler, and the
`finally` backup cleanup is applied on every path, exactly as in the source.
The registered tool functions, the format-specific integrity structure
checks, and the re-renderer are external collaborators (spec §6) and are
parameters of the environment. -/

/-- The filesystem: path → file contents. -/
abbrev Fs := List (String × String)

/-- A Python exception as discriminated by the handlers of the executor:
`asyncio.TimeoutError` or any other `Exception` (carrying `str(exc)`). -/
inductive PyExc where
  | timeout
  | error (msg : String)
  deriving DecidableEq, Repr

/-- Registry `TOOL_REGISTRY`: tool name → `is_pdf_tool` flag (the registered
functions themselves are external collaborators). -/
def toolRegistry : List (String × Bool) :=
  [("adjust_paragraph_indents", false),
    ("set_margins", false),
    ("set_page_size", false),
    ("set_columns", false),
    ("set_orientation", false),
    ("remove_blank_pages", false),
    ("replace_font", false),
    ("adjust_font_size", false),
    ("auto_fit_tables", false),
    ("resize_table_text", false),
    ("fix_page_breaks", false),
    ("remove_manual_breaks", false),
    ("accept_tracked_changes", false),
    ("strip_hidden_text", false),
    ("remove_empty_paragraphs", false),
    ("normalize_styles", false),
    ("set_widow_orphan_control", false),
    ("normalize_paragraph_spacing", false),
    ("set_line_spacing", false),
    ("pdf_crop_margins", true),
    ("pdf_scale_content", true),
    ("pdf_rotate_pages", true),
    ("pdf_normalize_page_sizes", true),
    ("pdf_embed_fonts", true),
    ("convert_colorspace", true),
    ("check_image_dpi", true),
    ("set_xlsx_margins", false),
    ("set_xlsx_page_setup", false),
    ("auto_fit_xlsx_columns", false),
    ("adjust_xlsx_font_size", false),
    ("replace_xlsx_font", false),
    ("set_xlsx_print_area", false),
    ("scale_xlsx_row_heights", false),
    ("resize_images_to_fit", false),
    ("set_pptx_slide_size", false),
    ("adjust_pptx_font_size", false),
    ("reposition_pptx_shapes", false),
    ("replace_pptx_font", false),
    ("resize_pptx_text_boxes", false)]

/-- Lookup `tool_name in TOOL_REGISTRY` / `TOOL_REGISTRY[tool_name]`. -/
def registryLookup (tool_name : String) : Option Bool :=
  assocGet toolRegistry tool_name

/-- Structure `FixResult` from `app/schema/fix.py`, restricted to the fields the
claims are about (`pages_affected`, `before_value`, `after_value` and the
wall-clock `timestamp` are omitted). -/
structure FixResultM where
  tool_name : String
  job_id : String
  success : Bool
  description : String
  error : Option String := none
  deriving DecidableEq, Repr

/-- A `FixAction` as consumed by the executor (plain value params). -/
structure ExecAction where
  tool_name : String
  params : Params := []
  target_issues : List String := []
  is_fallback : Bool := false
  deriving DecidableEq, Repr

/-- Behavior of a single registered tool invocation: the content it leaves
at the document path (`none` = file untouched) and how it terminates —
returning a result, raising an exception, or exceeding the timeout. -/
inductive ToolBehavior where
  | returns (newContent : Option String) (success : Bool)
      (description : String) (error : Option String)
  | raises (newContent : Option String) (msg : String)
  | timesOut (newContent : Option String)

/-- The environment of the executor: settings plus the external collaborators. -/
structure ExecEnv where
  /-- `settings.ENABLE_POST_FIX_VALIDATION`. -/
  enable_post_fix_validation : Bool
  /-- `settings.FIX_EXECUTION_TIMEOUT_SECONDS` (only echoed in messages). -/
  fix_timeout_seconds : Nat
  /-- Outcome of `_get_pdf_path(job_id)` for this job. -/
  resolve_pdf : Except PyExc String
  /-- Outcome of `resolve_document(job_id)` for this job. -/
  resolve_document : Except PyExc (String × String)
  /-- The registered tool functions: `(tool_name, params, current content) ↦
  behavior`. -/
  toolBehavior : String → Params → Option String → ToolBehavior
  /-- The external magic-bytes / structure checks of `_validate_file_sync`,
  as a judgment on file contents: `(file_type, content) ↦ (valid, details)`. -/
  validator : String → String → Bool × String
  /-- Outcome of `re_render_job(job_id)`. -/
  render : Except PyExc Unit

/-- Write `none` = leave the file untouched. -/
def fsWrite (fs : Fs) (path : String) (c : Option String) : Fs :=
  match c with
  | some c => assocSet fs path c
  | none => fs

/-- The content-level part of `_validate_file_sync`: the zero-byte check,
then the external magic-bytes/structure checks. -/
def validateFileContent (env : ExecEnv) (file_type content : String) :
    Bool × String :=
  if content = "" then (false, "file is empty (0 bytes)")
  else env.validator file_type content

/-- Functions `_validate_file_sync` / `validate_file` from `app/core/integrity.py`:
existence check, then the content checks. -/
def validate_file (env : ExecEnv) (fs : Fs) (path file_type : String) :
    Bool × String :=
  match assocGet fs path with
  | none => (false, "file does not exist")
  | some c => validateFileContent env file_type c

/-- Function `cleanup_backup`: remove the backup file if it exists (best effort). -/
def cleanup_backup (fs : Fs) (backup_path : String) : Fs :=
  assocRemove fs backup_path

/-- Function `restore_from_backup`: copy the backup over the original and delete the
backup; reports `false` (restore failed) when the backup does not exist. -/
def restore_from_backup (fs : Fs) (backup_path original_path : String) :
    Fs × Bool :=
  match assocGet fs backup_path with
  | some c => (assocRemove (assocSet fs original_path c) backup_path, true)
  | none => (fs, false)

/-- Function `validate_after_fix` from `app/core/integrity.py`: validate, and on
failure auto-restore from backup; on success clean the backup up.  Returns
the updated filesystem and `(valid, details)`. -/
def validate_after_fix (env : ExecEnv) (fs : Fs)
    (file_path file_type backup_path : String) : Fs × Bool × String :=
  let (valid, details) := validate_file env fs file_path file_type
  if valid then (cleanup_backup fs backup_path, true, details)
  else
    let (fs1, restored) := restore_from_backup fs backup_path file_path
    if restored then
      (fs1, false,
        "fix corrupted file, restored from backup; original error: " ++ details)
    else
      (fs1, false,
        "fix corrupted file and backup restore FAILED; original error: " ++ details)

/-- Result of the `execute_fix` model: the filesystem afterward, the
returned `FixResult`, and whether a registered tool function was invoked. -/
structure ExecOut where
  fs : Fs
  result : FixResultM
  invoked : Bool
  deriving Repr

/-- The `finally` clause: clean the backup up if `backup_path` is still set. -/
def execFinally (fs : Fs) (backup_path : Option String) : Fs :=
  match backup_path with
  | some b => cleanup_backup fs b
  | none => fs

/-- The `except asyncio.TimeoutError` / `except Exception` handlers of
`execute_fix`, followed by the `finally` cleanup. -/
def execHandle (env : ExecEnv) (tool_name job_id : String) (fs : Fs)
    (backup_path : Option String) (invoked : Bool) (e : PyExc) : ExecOut :=
  let result : FixResultM :=
    match e with
    | .timeout =>
      { tool_name := tool_name, job_id := job_id, success := false,
        description := tool_name ++ " timed out after "
          ++ toString env.fix_timeout_seconds ++ "s",
        error := some "timeout" }
    | .error msg =>
      { tool_name := tool_name, job_id := job_id, success := false,
        description := "Exception during " ++ tool_name ++ ": " ++ msg,
        error := some msg }
  { fs := execFinally fs backup_path, result := result, invoked := invoked }

/-- Document-path resolution at the top of the `try` block (`_get_pdf_path`
for PDF tools, `resolve_document` otherwise). -/
def execResolve (env : ExecEnv) (is_pdf : Bool) :
    Except PyExc (String × String) :=
  if is_pdf then env.resolve_pdf.map (fun p => (p, ".pdf"))
  else env.resolve_document

/-- Function `execute_fix` from `app/orchestration/executor.py`.  Total: every raise
point of the `try` block (path resolution, the `shutil.copy2` backup, the
tool call with its timeout, re-rendering) is routed to the model of the
corresponding handler, so no exception escapes.  The fix-log append
(`record_fix`) is store I/O with no bearing on the claims and is not
modelled. -/
def execute_fix (env : ExecEnv) (job_id : String) (action : ExecAction)
    (fs0 : Fs) : ExecOut :=
  let tool_name := action.tool_name
  match registryLookup tool_name with
  | none =>
    -- the source quotes the tool name in the error message; the quote
    -- characters are omitted here
    { fs := fs0,
      result :=
        { tool_name := tool_name, job_id := job_id, success := false,
          description := "Unknown tool: " ++ tool_name,
          error := some ("Tool " ++ tool_name ++ " not found in registry") },
      invoked := false }
  | some is_pdf =>
    match execResolve env is_pdf with
    | .error e => execHandle env tool_name job_id fs0 none false e
    | .ok (file_path, file_type_ext) =>
      let backupStep : Except PyExc (Fs × Option String) :=
        if env.enable_post_fix_validation then
          match assocGet fs0 file_path with
          | some c0 =>
            .ok (assocSet fs0 (file_path ++ ".bak") c0, some (file_path ++ ".bak"))
          | none => .error (.error ("file not found: " ++ file_path))
        else .ok (fs0, none)
      match backupStep with
      | .error e => execHandle env tool_name job_id fs0 none false e
      | .ok (fs1, backup_path) =>
        match env.toolBehavior tool_name action.params (assocGet fs1 file_path) with
        | .timesOut nc =>
          execHandle env tool_name job_id (fsWrite fs1 file_path nc) backup_path true .timeout
        | .raises nc msg =>
          execHandle env tool_name job_id (fsWrite fs1 file_path nc) backup_path true (.error msg)
        | .returns nc success description error =>
          let fs2 := fsWrite fs1 file_path nc
          let result : FixResultM :=
            { tool_name := tool_name, job_id := job_id, success := success,
              description := description, error := error }
          if success then
            match env.enable_post_fix_validation, backup_path with
            | true, some b =>
              let (fs3, valid, details) :=
                validate_after_fix env fs2 file_path file_type_ext b
              if ¬valid then
                { fs := fs3,
                  result :=
                    { tool_name := tool_name, job_id := job_id, success := false,
                      description :=
                        tool_name ++ " produced corrupt output, file restored from backup",
                      error := some ("Post-fix validation failed: " ++ details) },
                  invoked := true }
              else
                match env.render with
                | .error e => execHandle env tool_name job_id fs3 none true e
                | .ok _ => { fs := fs3, result := result, invoked := true }
            | _, _ =>
              match env.render with
              | .error e => execHandle env tool_name job_id fs2 backup_path true e
              | .ok _ =>
                { fs := execFinally fs2 backup_path, result := result, invoked := true }
          else
            { fs := execFinally fs2 backup_path, result := result, invoked := true }

/-- Aggregate returned by `execute_plan`:
`(applied, failed, failed_issue_types, used_fallback)`. -/
structure PlanExecOut where
  applied : Nat
  failed : Nat
  failed_issue_types : List String
  used_fallback : Bool
  deriving Repr

/-- Python `set.update`: insert the elements not already present. -/
def setUpdate (s xs : List String) : List String :=
  xs.foldl (fun acc x => if x ∈ acc then acc else acc ++ [x]) s

/-- The loop body of `execute_plan` over `(action, result.success)` pairs:
the per-action outcomes of the sequential `execute_fix` calls are the
environment of this loop. -/
def executePlanGo (applied failed : Nat) (fit : List String) (ufb : Bool) :
    List (ExecAction × Bool) → PlanExecOut
  | [] => ⟨applied, failed, fit, ufb⟩
  | (action, success) :: rest =>
    if success then
      executePlanGo (applied + 1) failed fit (ufb || action.is_fallback) rest
    else
      executePlanGo applied (failed + 1)
        (if ¬action.is_fallback then setUpdate fit action.target_issues else fit)
        ufb rest

/-- Function `execute_plan` from `app/orchestration/executor.py`. -/
def execute_plan (l : List (ExecAction × Bool)) : PlanExecOut :=
  executePlanGo 0 0 [] false l

/-! ## Job state store (`app/worker/job_state.py`)

Each job is a Redis hash at `printfix:job:{job_id}` — a field map plus an
optional absolute expiry deadline.  `HSET` on an existing key merges fields
and leaves the TTL untouched; on a missing key it creates the hash with no
TTL.  `EXPIRE` sets the deadline to `now + ttl`.  Times are integers
(seconds); the ISO timestamp strings stored in the hash are rendered with
`toString`.  The advisory `VALID_TRANSITIONS` warning of `set_state` only
logs and has no state effect, so it does not appear in the state model. -/

/-- A Redis hash: field map plus optional absolute expiry deadline. -/
abbrev RedisState := List (String × (List (String × String) × Option Int))

/-- Redis `HSET key mapping`: merge fields in order; create the key (with no TTL)
if missing; never touch an existing TTL. -/
def redisHset (st : RedisState) (key : String)
    (mapping : List (String × String)) : RedisState :=
  match assocGet st key with
  | some (fields, ttl) =>
    assocSet st key (mapping.foldl (fun fs kv => assocSet fs kv.1 kv.2) fields, ttl)
  | none =>
    assocSet st key (mapping.foldl (fun fs kv => assocSet fs kv.1 kv.2) [], none)

/-- Redis `EXPIRE key ttl` at time `now`: set the deadline of an existing key. -/
def redisExpire (st : RedisState) (key : String) (ttl now : Int) : RedisState :=
  match assocGet st key with
  | some (fields, _) => assocSet st key (fields, some (now + ttl))
  | none => st

/-- The absolute expiry deadline of a key (`none` = no TTL / missing key). -/
def expiryOf (st : RedisState) (key : String) : Option Int :=
  (assocGet st key).bind (fun e => e.2)

/-- Constant `settings.JOB_TTL_SECONDS` (24 hours). -/
def JOB_TTL_SECONDS : Int := 86400

/-- Function `JobStateManager._key`. -/
def jobKey (job_id : String) : String := "printfix:job:" ++ job_id

/-- Method `JobStateManager.create_job`: HSET the initial field map, then EXPIRE
with `JOB_TTL_SECONDS`. -/
def create_job (st : RedisState) (now : Int) (job_id original_filename : String)
    (kwargs : List (String × String)) : RedisState :=
  let mapping :=
    [("id", job_id), ("status", "uploaded"),
      ("original_filename", original_filename),
      ("created_at", toString now), ("updated_at", toString now)] ++ kwargs
  redisExpire (redisHset st (jobKey job_id) mapping) (jobKey job_id)
    JOB_TTL_SECONDS now

/-- Method `JobStateManager.set_state`: HSET the updates (status, `updated_at`,
optional error, `completed_at` on terminal states, `extra`) — and nothing
else: no EXPIRE call. -/
def set_state (st : RedisState) (now : Int) (job_id new_status : String)
    (error : Option String) (extra : List (String × String)) : RedisState :=
  let updates :=
    [("status", new_status), ("updated_at", toString now)]
    ++ (match error with
        | some e => if e ≠ "" then [("error", e)] else []
        | none => [])
    ++ (if new_status ∈ ["done", "failed", "needs_review"] then
          [("completed_at", toString now)]
        else [])
    ++ extra
  redisHset st (jobKey job_id) updates

/-! ## Retry helper (`app/core/retry.py`)

The wrapped async callable is modelled by the outcome of each attempt
(attempt index ↦ value or exception); an exception carries its Python type
tag, and `except retryable as exc` is membership of the tag in the
retryable set.  Delays are elements of an arbitrary linearly ordered ring
(instantiable at `ℚ` for float seconds).  The observable trace is the
result, the number of calls to `fn`, and the list of sleep durations. -/

/-- A Python exception value: type tag and message. -/
structure PyErr where
  ty : String
  msg : String
  deriving DecidableEq, Repr

/-- Outcome of one invocation of the wrapped callable. -/
inductive CallOutcome (α : Type) where
  | ok (v : α)
  | exc (e : PyErr)
  deriving DecidableEq, Repr

/-- Observable trace of `with_retry`: the propagated result, the number of
calls to `fn`, and the successive sleep durations. -/
structure RetryTrace (α γ : Type) where
  result : Except PyErr α
  calls : Nat
  sleeps : List γ
  deriving Repr

/-- The `for attempt in range(max_retries + 1)` loop of `with_retry`,
consuming the remaining attempt indices and carrying `last_exc`.  On a
retryable exception at `attempt == max_retries` the loop breaks and
re-raises it; otherwise it sleeps `min(base_delay * 2 ** attempt, max_delay)`
and retries.  A non-retryable exception is not caught and propagates. -/
def retryGo {α γ : Type} [LinearOrderedRing γ] (fn : Nat → CallOutcome α)
    (retryable : String → Bool) (base_delay max_delay : γ) (max_retries : Nat) :
    List Nat → Option PyErr → RetryTrace α γ
  | [], last =>
    match last with
    | some e => ⟨.error e, 0, []⟩
    | none => ⟨.error ⟨"TypeError", "exceptions must derive from BaseException"⟩, 0, []⟩
  | attempt :: rest, _ =>
    match fn attempt with
    | .ok v => ⟨.ok v, 1, []⟩
    | .exc e =>
      if retryable e.ty then
        if attempt = max_retries then ⟨.error e, 1, []⟩
        else
          let d := min (base_delay * 2 ^ attempt) max_delay
          let r := retryGo fn retryable base_delay max_delay max_retries rest (some e)
          ⟨r.result, r.calls + 1, d :: r.sleeps⟩
      else ⟨.error e, 1, []⟩

/-- Function `with_retry` from `app/core/retry.py`. -/
def with_retry {α γ : Type} [LinearOrderedRing γ] (fn : Nat → CallOutcome α)
    (max_retries : Nat) (base_delay max_delay : γ)
    (retryable : String → Bool) : RetryTrace α γ :=
  retryGo fn retryable base_delay max_delay max_retries
    (List.range (max_retries + 1)) none

/-! ## Rate limiter (`app/core/rate_limit.py`)

The per-key Redis sorted set is a list of `(member, score)` pairs; the
member `str(now)` is identified with the timestamp itself (`str` is
injective on distinct floats).  Timestamps live in an arbitrary linearly
ordered additive group (instantiable at `ℚ` for float seconds).  The
window-key `EXPIRE` of the pipeline only deletes state that the pruning
of the next check would discard anyway and is not modelled. -/

/-- A Redis sorted set: `(member, score)` pairs, members unique. -/
abbrev ZSet (τ : Type) := List (τ × τ)

/-- Redis `ZREMRANGEBYSCORE key lo hi`: drop entries with `lo ≤ score ≤ hi`. -/
def zremrangebyscore {τ : Type} [LinearOrder τ] (z : ZSet τ) (lo hi : τ) :
    ZSet τ :=
  z.filter (fun p => decide (¬(lo ≤ p.2 ∧ p.2 ≤ hi)))

/-- Redis `ZADD` of one member and score: update the score of the member in place, or
append a new entry. -/
def zadd {τ : Type} [DecidableEq τ] (z : ZSet τ) (member score : τ) : ZSet τ :=
  match z with
  | [] => [(member, score)]
  | (m, s) :: rest =>
    if m = member then (member, score) :: rest
    else (m, s) :: zadd rest member score

/-- Redis `ZREM key member`: remove the member. -/
def zrem {τ : Type} [DecidableEq τ] (z : ZSet τ) (member : τ) : ZSet τ :=
  z.filter (fun p => decide (p.1 ≠ member))

/-- Method `RateLimiter.check` from `app/core/rate_limit.py`: prune entries older
than `now - window_seconds`, insert the current timestamp, count, compare to
`limit`; when over the limit remove the just-inserted entry (no-op
admission).  Returns `((allowed, remaining), new window state)` with
`remaining = max(0, limit - count)` (truncated `Nat` subtraction). -/
def rl_check {τ : Type} [LinearOrderedAddCommGroup τ] (z : ZSet τ) (now : τ)
    (limit : Nat) (window_seconds : τ) : (Bool × Nat) × ZSet τ :=
  let z1 := zremrangebyscore z 0 (now - window_seconds)
  let z2 := zadd z1 now now
  let count := z2.length
  let allowed := decide (count ≤ limit)
  let remaining := limit - count
  if allowed then ((allowed, remaining), z2)
  else ((allowed, remaining), zrem z2 now)

end Printfix

namespace Printfix

/-! ## Theorems about the convergence detector -/

/-- C1: for every non-empty history whose last record has
`iteration >= max_iterations`, `should_stop` stops with the
"max iterations reached" reason, for both values of `fallback_available`
and regardless of all issue and fix counts in the history. -/
theorem should_stop_max_iterations
    (states : List ConvergenceState) (current : ConvergenceState)
    (max_iterations : Int) (fallback_available : Bool)
    (hlast : states.getLast? = some current)
    (hit : current.iteration ≥ max_iterations) :
    should_stop states max_iterations fallback_available =
      (true, "max iterations reached (" ++ toString max_iterations ++ ")") := by
  unfold should_stop
  rw [hlast]
  simp [hit]

/-- Witness for C1 at a concrete two-record history. -/
theorem should_stop_max_iterations_witness :
    should_stop
      [⟨1, 10, 8, 3, 2, 1, 1, 2, 0, false⟩, ⟨3, 8, 8, 2, 2, 1, 1, 0, 4, true⟩]
      3 true = (true, "max iterations reached (" ++ toString (3 : Int) ++ ")") :=
  should_stop_max_iterations _ ⟨3, 8, 8, 2, 2, 1, 1, 0, 4, true⟩ 3 true
    (by decide) (by decide)

/-- C2 counterexample: a single-record history whose last record has
`fixes_applied = 0` and `fixes_failed > 0` but `iteration >= max_iterations`;
the claim demands continue (`stop = false`) because `fallback_available = true`,
yet `should_stop` stops with the max-iterations reason, which takes priority. -/
theorem should_stop_fallback_gating_counterexample :
    (⟨3, 5, 5, 1, 1, 0, 0, 0, 1, false⟩ : ConvergenceState).fixes_applied = 0
    ∧ (⟨3, 5, 5, 1, 1, 0, 0, 0, 1, false⟩ : ConvergenceState).fixes_failed > 0
    ∧ should_stop [⟨3, 5, 5, 1, 1, 0, 0, 0, 1, false⟩] 3 true
        = (true, "max iterations reached (3)") := by
  refine ⟨rfl, by decide, ?_⟩
  rfl

/-- C2 as amended: the fallback gating holds whenever the earlier stopping
rules do not fire, i.e. the last record additionally satisfies
`iteration < max_iterations`, `issues_after ≠ 0` and not
(`critical_after = 0` and `warning_after = 0`).  Then `should_stop` continues
when `fallback_available` is true and stops with the "all fixes failed"
reason when it is false. -/
theorem should_stop_fallback_gating
    (states : List ConvergenceState) (current : ConvergenceState)
    (max_iterations : Int) (fallback_available : Bool)
    (hlast : states.getLast? = some current)
    (hit : current.iteration < max_iterations)
    (hia : current.issues_after ≠ 0)
    (hcw : ¬(current.critical_after = 0 ∧ current.warning_after = 0))
    (hfa : current.fixes_applied = 0)
    (hff : current.fixes_failed > 0) :
    should_stop states max_iterations fallback_available =
      if fallback_available then (false, "")
      else (true, "all fixes failed, no progress possible") := by
  unfold should_stop
  rw [hlast]
  simp only [not_le.mpr hit, if_false, hia, if_false, hcw, if_false,
    hfa, hff, and_true, true_and, if_true]

/-- C3 counterexample: the exact history of the claim — `maxIterations = 3`,
total issues `[10 → 6 → 6]`, fixes applied each iteration, critical+warning
count not decreasing (3+3 → 3+3) and still positive — evaluated with
`fallback_available = false`.  The claim demands `stop = true` with a
stalled-progress reason after iteration 2; the code continues, because rule 5
additionally requires the total issue count to have strictly increased
(`6 > 6` is false). -/
theorem should_stop_stall_counterexample :
    should_stop
      [⟨1, 10, 6, 4, 3, 4, 3, 2, 0, false⟩, ⟨2, 6, 6, 3, 3, 3, 3, 1, 0, false⟩]
      3 false = (false, "") := by
  rfl

/-- C3 as amended: for every two-record history with `maxIterations = 3`,
issue counts `[10 → 6 → 6]`, fixes applied each iteration, critical+warning
count not decreasing and some critical or warning issues remaining,
`should_stop` returns `stop = false` after iteration 2 for **both** values of
`fallback_available` (the loop proceeds to iteration 3): the stall rule only
fires when the total issue count strictly increased. -/
theorem should_stop_stall_requires_total_increase
    (s1 s2 : ConvergenceState) (fallback_available : Bool)
    (h2it : s2.iteration = 2)
    (h1ib : s1.issues_before = 10) (h1ia : s1.issues_after = 6)
    (h2ib : s2.issues_before = 6) (h2ia : s2.issues_after = 6)
    (hfa1 : s1.fixes_applied > 0) (hfa2 : s2.fixes_applied > 0)
    (himp : s1.critical_after + s1.warning_after ≤
      s2.critical_after + s2.warning_after)
    (hrem : ¬(s2.critical_after = 0 ∧ s2.warning_after = 0)) :
    should_stop [s1, s2] 3 fallback_available = (false, "") := by
  have hfa2' : ¬s2.fixes_applied = 0 := by omega
  unfold should_stop
  simp only [List.getLast?, List.dropLast, List.getLast]
  rw [h2it, h2ia, h1ia]
  simp [hrem, hfa2', himp]

/-- Witness for the amended C3 at the concrete `[10 → 6 → 6]` history. -/
theorem should_stop_stall_requires_total_increase_witness :
    should_stop
      [⟨1, 10, 6, 4, 3, 4, 3, 2, 0, false⟩, ⟨2, 6, 6, 3, 3, 3, 3, 1, 0, false⟩]
      3 true = (false, "") :=
  should_stop_stall_requires_total_increase
    ⟨1, 10, 6, 4, 3, 4, 3, 2, 0, false⟩ ⟨2, 6, 6, 3, 3, 3, 3, 1, 0, false⟩
    true rfl rfl rfl rfl rfl (by decide) (by decide) (by decide) (by decide)

/-- Witness for the amended C2, both branches at concrete histories. -/
theorem should_stop_fallback_gating_witness :
    should_stop [⟨1, 5, 5, 1, 1, 0, 0, 0, 2, false⟩] 3 true = (false, "")
    ∧ should_stop [⟨1, 5, 5, 1, 1, 0, 0, 0, 2, false⟩] 3 false
        = (true, "all fixes failed, no progress possible") :=
  ⟨should_stop_fallback_gating _ ⟨1, 5, 5, 1, 1, 0, 0, 0, 2, false⟩ 3 true rfl
      (by decide) (by decide) (by decide) rfl (by decide),
    should_stop_fallback_gating _ ⟨1, 5, 5, 1, 1, 0, 0, 0, 2, false⟩ 3 false rfl
      (by decide) (by decide) (by decide) rfl (by decide)⟩

/-! ## Association-list lemmas -/

theorem assocGet_set_self {β : Type} (l : List (String × β)) (k : String) (v : β) :
    assocGet (assocSet l k v) k = some v := by
  induction l with
  | nil => simp [assocSet, assocGet]
  | cons h t ih =>
    obtain ⟨k', v'⟩ := h
    by_cases hk : k' = k
    · simp [assocSet, hk, assocGet]
    · simp [assocSet, hk, assocGet, ih]

theorem assocGet_set_ne {β : Type} (l : List (String × β)) (k j : String) (v : β)
    (h : j ≠ k) : assocGet (assocSet l k v) j = assocGet l j := by
  have hkj : ¬k = j := fun hh => h hh.symm
  induction l with
  | nil => simp [assocSet, assocGet, hkj]
  | cons hd t ih =>
    obtain ⟨k', v'⟩ := hd
    by_cases hk : k' = k
    · subst hk
      simp [assocSet, assocGet, hkj]
    · simp only [assocSet, if_neg hk]
      by_cases hj : k' = j
      · simp [assocGet, hj]
      · simp [assocGet, hj, ih]

theorem assocGet_remove_self {β : Type} (l : List (String × β)) (k : String) :
    assocGet (assocRemove l k) k = none := by
  induction l with
  | nil => simp [assocRemove, assocGet]
  | cons hd t ih =>
    obtain ⟨k', v'⟩ := hd
    by_cases hk : k' = k
    · simpa [assocRemove, hk] using ih
    · simpa [assocRemove, hk, assocGet] using ih

theorem assocGet_remove_ne {β : Type} (l : List (String × β)) (k j : String)
    (h : j ≠ k) : assocGet (assocRemove l k) j = assocGet l j := by
  have hkj : ¬k = j := fun hh => h hh.symm
  induction l with
  | nil => simp [assocRemove, assocGet]
  | cons hd t ih =>
    obtain ⟨k', v'⟩ := hd
    by_cases hk : k' = k
    · subst hk
      simp [assocRemove, assocGet, hkj, ih]
    · by_cases hj : k' = j
      · simp [assocRemove, hk, assocGet, hj, h]
      · simp [assocRemove, hk, assocGet, hj, ih]

/-- A path is never equal to its backup path. -/
theorem ne_append_bak (s : String) : s ≠ s ++ ".bak" := by
  intro h
  have hl : s.length = (s ++ ".bak").length := congrArg String.length h
  rw [String.length_append] at hl
  have : (".bak" : String).length = 4 := rfl
  omega

/-! ## Theorems about the fix planner -/

/-- C4: evaluation of `plan_fixes_rule_based` at the failing input — a `.docx`
diagnosis with two `non_embedded_font` issues whose locations are the font
names "FontA" and "FontB".  Because `model_copy()` shares the params dict of the
template and `action.params["from_font"] = issue.location` mutates it in
place, the dedup keys differ at insertion time ("FontA" vs "FontB") but both
appended actions alias the same dict; the returned plan therefore contains
two actions with the **same** `(tool_name, params)` pair
`("replace_font", {from_font: "FontB", to_font: "Arial"})`, contradicting the
claimed deduplication. -/
theorem plan_fixes_shared_params_duplicate :
    resolvedActions
      (plan_fixes_rule_based
        ⟨"job-c4", [],
          [⟨"non_embedded_font", "critical", some "FontA", none⟩,
            ⟨"non_embedded_font", "critical", some "FontB", none⟩]⟩
        "aggressive" ".docx" none 1 []) =
      [("replace_font",
          [("from_font", .pstr "FontB"), ("to_font", .pstr "Arial")], false),
        ("replace_font",
          [("from_font", .pstr "FontB"), ("to_font", .pstr "Arial")], false)] := by
  rfl

/-! ## Theorems about the fix executor -/

/-- C5: executor rollback.  If post-fix validation is enabled, the document
exists with pre-fix content `c0`, the registered tool reports success after
writing content `nc`, and the integrity validation of `nc` fails, then
`execute_fix` leaves the document at the original path byte-identical to its
pre-fix state (the content of the backup taken before the fix), releases the
backup, and returns a `FixResult` with `success = false` describing the
corruption and restoration. -/
theorem execute_fix_rollback
    (env : ExecEnv) (job_id : String) (action : ExecAction) (fs : Fs)
    (is_pdf : Bool) (path ftype c0 nc desc : String) (err : Option String)
    (hreg : registryLookup action.tool_name = some is_pdf)
    (hres : execResolve env is_pdf = .ok (path, ftype))
    (hval : env.enable_post_fix_validation = true)
    (hc0 : assocGet fs path = some c0)
    (htool : env.toolBehavior action.tool_name action.params (some c0) =
      .returns (some nc) true desc err)
    (hbad : (validateFileContent env ftype nc).1 = false) :
    assocGet (execute_fix env job_id action fs).fs path = some c0
    ∧ assocGet (execute_fix env job_id action fs).fs (path ++ ".bak") = none
    ∧ (execute_fix env job_id action fs).result.success = false
    ∧ (execute_fix env job_id action fs).result.description =
        action.tool_name ++ " produced corrupt output, file restored from backup"
    ∧ (execute_fix env job_id action fs).result.error =
        some ("Post-fix validation failed: "
          ++ ("fix corrupted file, restored from backup; original error: "
            ++ (validateFileContent env ftype nc).2)) := by
  have hne : path ≠ path ++ ".bak" := ne_append_bak path
  have hget1 : assocGet (assocSet fs (path ++ ".bak") c0) path = some c0 := by
    rw [assocGet_set_ne _ _ _ _ hne]; exact hc0
  have hgetnc :
      assocGet (assocSet (assocSet fs (path ++ ".bak") c0) path nc) path = some nc :=
    assocGet_set_self _ _ _
  have hgetbak :
      assocGet (assocSet (assocSet fs (path ++ ".bak") c0) path nc) (path ++ ".bak")
        = some c0 := by
    rw [assocGet_set_ne _ _ _ _ (Ne.symm hne)]
    exact assocGet_set_self _ _ _
  obtain ⟨vd, hvd⟩ : ∃ d, validateFileContent env ftype nc = (false, d) :=
    ⟨(validateFileContent env ftype nc).2, by rw [← hbad]⟩
  have hfinal :
      execute_fix env job_id action fs =
        { fs := assocRemove
            (assocSet (assocSet (assocSet fs (path ++ ".bak") c0) path nc) path c0)
            (path ++ ".bak"),
          result :=
            { tool_name := action.tool_name, job_id := job_id, success := false,
              description := action.tool_name
                ++ " produced corrupt output, file restored from backup",
              error := some ("Post-fix validation failed: "
                ++ ("fix corrupted file, restored from backup; original error: "
                  ++ vd)) },
          invoked := true } := by
    simp [execute_fix, hreg, hres, hval, hc0, hget1, htool, hvd, hgetnc, hgetbak,
      validate_after_fix, validate_file, restore_from_backup, fsWrite]
  rw [hfinal, hvd]
  refine ⟨?_, ?_, rfl, rfl, rfl⟩
  · rw [assocGet_remove_ne _ _ _ hne]
    exact assocGet_set_self _ _ _
  · exact assocGet_remove_self _ _

/-- Witness for C5 at a concrete environment: the tool `set_margins`
"succeeds" but corrupts `doc.docx`; the document is restored to its
original content and the result is a failure. -/
theorem execute_fix_rollback_witness :
    assocGet (execute_fix
      ⟨true, 30, .error (.error "no pdf"), .ok ("doc.docx", ".docx"),
        fun _ _ _ => .returns (some "CORRUPT") true "set margins" none,
        fun _ _ => (false, "bad zip"), .ok ()⟩
      "job-1" ⟨"set_margins", [], ["margin_violation"], false⟩
      [("doc.docx", "ORIGINAL")]).fs "doc.docx" = some "ORIGINAL"
    ∧ (execute_fix
      ⟨true, 30, .error (.error "no pdf"), .ok ("doc.docx", ".docx"),
        fun _ _ _ => .returns (some "CORRUPT") true "set margins" none,
        fun _ _ => (false, "bad zip"), .ok ()⟩
      "job-1" ⟨"set_margins", [], ["margin_violation"], false⟩
      [("doc.docx", "ORIGINAL")]).result.success = false := by
  have h := execute_fix_rollback
    ⟨true, 30, .error (.error "no pdf"), .ok ("doc.docx", ".docx"),
      fun _ _ _ => .returns (some "CORRUPT") true "set margins" none,
      fun _ _ => (false, "bad zip"), .ok ()⟩
    "job-1" ⟨"set_margins", [], ["margin_violation"], false⟩
    [("doc.docx", "ORIGINAL")] false "doc.docx" ".docx" "ORIGINAL" "CORRUPT"
    "set margins" none rfl rfl rfl rfl rfl rfl
  exact ⟨h.1, h.2.2.1⟩

/-- C6: `execute_fix` never lets an exception escape — the embedding routes
every raise point of the `try` block into the modelled handlers and is a
total function.  Specifically: (1) a `tool_name` absent from the registry
returns immediately, without invoking any tool and with the filesystem
untouched, a `FixResult` whose `success = false` and whose error names the
unknown tool; (2) a tool timeout yields a returned `FixResult` with
`success = false` and `error = "timeout"`; (3) an exception raised inside
the tool yields a returned `FixResult` with `success = false` carrying the
exception message. -/
theorem execute_fix_degrades_gracefully
    (env : ExecEnv) (job_id : String) (action : ExecAction) (fs : Fs) :
    (registryLookup action.tool_name = none →
      execute_fix env job_id action fs =
        { fs := fs,
          result :=
            { tool_name := action.tool_name, job_id := job_id, success := false,
              description := "Unknown tool: " ++ action.tool_name,
              error := some ("Tool " ++ action.tool_name
                ++ " not found in registry") },
          invoked := false })
    ∧ (∀ is_pdf path ftype nc,
        registryLookup action.tool_name = some is_pdf →
        execResolve env is_pdf = .ok (path, ftype) →
        (env.enable_post_fix_validation = true → ∃ c, assocGet fs path = some c) →
        env.toolBehavior action.tool_name action.params (assocGet fs path) =
          .timesOut nc →
        (execute_fix env job_id action fs).result.success = false
          ∧ (execute_fix env job_id action fs).result.error = some "timeout")
    ∧ (∀ is_pdf path ftype nc msg,
        registryLookup action.tool_name = some is_pdf →
        execResolve env is_pdf = .ok (path, ftype) →
        (env.enable_post_fix_validation = true → ∃ c, assocGet fs path = some c) →
        env.toolBehavior action.tool_name action.params (assocGet fs path) =
          .raises nc msg →
        (execute_fix env job_id action fs).result.success = false
          ∧ (execute_fix env job_id action fs).result.error = some msg) := by
  refine ⟨?_, ?_, ?_⟩
  · intro h
    rw [execute_fix, h]
  · intro is_pdf path ftype nc hreg hres hex htool
    by_cases hv : env.enable_post_fix_validation = true
    · obtain ⟨c0, hc0⟩ := hex hv
      rw [hc0] at htool
      have hget1 : assocGet (assocSet fs (path ++ ".bak") c0) path = some c0 := by
        rw [assocGet_set_ne _ _ _ _ (ne_append_bak path)]; exact hc0
      simp [execute_fix, hreg, hres, hv, hc0, hget1, htool, execHandle]
    · have hv' : env.enable_post_fix_validation = false := by
        simpa using hv
      simp [execute_fix, hreg, hres, hv', htool, execHandle]
  · intro is_pdf path ftype nc msg hreg hres hex htool
    by_cases hv : env.enable_post_fix_validation = true
    · obtain ⟨c0, hc0⟩ := hex hv
      rw [hc0] at htool
      have hget1 : assocGet (assocSet fs (path ++ ".bak") c0) path = some c0 := by
        rw [assocGet_set_ne _ _ _ _ (ne_append_bak path)]; exact hc0
      simp [execute_fix, hreg, hres, hv, hc0, hget1, htool, execHandle]
    · have hv' : env.enable_post_fix_validation = false := by
        simpa using hv
      simp [execute_fix, hreg, hres, hv', htool, execHandle]

/-- Witness for C6: the three degradation modes at concrete environments —
an unregistered tool name, a timeout, and an in-tool exception. -/
theorem execute_fix_degrades_gracefully_witness :
    (execute_fix
        ⟨true, 30, .error (.error "no pdf"), .ok ("doc.docx", ".docx"),
          fun _ _ _ => .returns none true "" none,
          fun _ _ => (true, "ok"), .ok ()⟩
        "job-2" ⟨"frobnicate", [], [], false⟩
        [("doc.docx", "ORIGINAL")]).result.error =
      some ("Tool frobnicate not found in registry")
    ∧ (execute_fix
        ⟨true, 30, .error (.error "no pdf"), .ok ("doc.docx", ".docx"),
          fun _ _ _ => .timesOut none,
          fun _ _ => (true, "ok"), .ok ()⟩
        "job-2" ⟨"set_margins", [], [], false⟩
        [("doc.docx", "ORIGINAL")]).result.error = some "timeout"
    ∧ (execute_fix
        ⟨true, 30, .error (.error "no pdf"), .ok ("doc.docx", ".docx"),
          fun _ _ _ => .raises none "boom",
          fun _ _ => (true, "ok"), .ok ()⟩
        "job-2" ⟨"set_margins", [], [], false⟩
        [("doc.docx", "ORIGINAL")]).result.error = some "boom" := by
  refine ⟨?_, ?_, ?_⟩
  · have h := (execute_fix_degrades_gracefully
      ⟨true, 30, .error (.error "no pdf"), .ok ("doc.docx", ".docx"),
        fun _ _ _ => .returns none true "" none,
        fun _ _ => (true, "ok"), .ok ()⟩
      "job-2" ⟨"frobnicate", [], [], false⟩
      [("doc.docx", "ORIGINAL")]).1 rfl
    rw [h]
    rfl
  · exact ((execute_fix_degrades_gracefully
      ⟨true, 30, .error (.error "no pdf"), .ok ("doc.docx", ".docx"),
        fun _ _ _ => .timesOut none,
        fun _ _ => (true, "ok"), .ok ()⟩
      "job-2" ⟨"set_margins", [], [], false⟩
      [("doc.docx", "ORIGINAL")]).2.1 false "doc.docx" ".docx" none rfl rfl
      (fun _ => ⟨"ORIGINAL", rfl⟩) rfl).2
  · exact ((execute_fix_degrades_gracefully
      ⟨true, 30, .error (.error "no pdf"), .ok ("doc.docx", ".docx"),
        fun _ _ _ => .raises none "boom",
        fun _ _ => (true, "ok"), .ok ()⟩
      "job-2" ⟨"set_margins", [], [], false⟩
      [("doc.docx", "ORIGINAL")]).2.2 false "doc.docx" ".docx" none "boom" rfl rfl
      (fun _ => ⟨"ORIGINAL", rfl⟩) rfl).2

theorem setUpdate_mem (s xs : List String) (x : String) :
    x ∈ setUpdate s xs ↔ x ∈ s ∨ x ∈ xs := by
  induction xs generalizing s with
  | nil => simp [setUpdate]
  | cons a t ih =>
    have hstep : setUpdate s (a :: t) = setUpdate (if a ∈ s then s else s ++ [a]) t := rfl
    rw [hstep, ih]
    by_cases ha : a ∈ s
    · simp only [ha, if_true, List.mem_cons]
      constructor
      · rintro (h | h)
        · exact Or.inl h
        · exact Or.inr (Or.inr h)
      · rintro (h | h | h)
        · exact Or.inl h
        · exact Or.inl (h ▸ ha)
        · exact Or.inr h
    · simp only [ha, if_false, List.mem_append, List.mem_cons, List.mem_singleton]
      tauto

theorem executePlanGo_counts (l : List (ExecAction × Bool)) :
    ∀ a f fit u, (executePlanGo a f fit u l).applied
      + (executePlanGo a f fit u l).failed = a + f + l.length := by
  induction l with
  | nil => intro a f fit u; simp [executePlanGo]
  | cons p t ih =>
    intro a f fit u
    obtain ⟨act, succ⟩ := p
    cases succ <;> simp [executePlanGo, ih] <;> omega

theorem executePlanGo_used_fallback (l : List (ExecAction × Bool)) :
    ∀ a f fit u, (executePlanGo a f fit u l).used_fallback =
      (u || l.any (fun p => p.2 && p.1.is_fallback)) := by
  induction l with
  | nil => intro a f fit u; simp [executePlanGo]
  | cons p t ih =>
    intro a f fit u
    obtain ⟨act, succ⟩ := p
    cases succ <;> simp [executePlanGo, ih, Bool.or_assoc]

theorem executePlanGo_failed_types (l : List (ExecAction × Bool)) :
    ∀ a f fit u x, x ∈ (executePlanGo a f fit u l).failed_issue_types ↔
      x ∈ fit ∨ ∃ p ∈ l, p.2 = false ∧ p.1.is_fallback = false
        ∧ x ∈ p.1.target_issues := by
  induction l with
  | nil => intro a f fit u x; simp [executePlanGo]
  | cons p t ih =>
    intro a f fit u x
    obtain ⟨act, succ⟩ := p
    cases succ with
    | true =>
      rw [show executePlanGo a f fit u ((act, true) :: t)
          = executePlanGo (a + 1) f fit (u || act.is_fallback) t from rfl, ih]
      simp
    | false =>
      have hstep : executePlanGo a f fit u ((act, false) :: t)
          = executePlanGo a (f + 1)
              (if ¬act.is_fallback then setUpdate fit act.target_issues else fit)
              u t := rfl
      by_cases hfb : act.is_fallback
      · rw [hstep, ih]
        simp [hfb]
      · have hfb' : act.is_fallback = false := by simpa using hfb
        rw [hstep, ih]
        simp [hfb', setUpdate_mem, List.exists_mem_cons_iff]
        tauto

/-! ## Theorems about the job state store -/

theorem expiryOf_hset (st : RedisState) (key : String)
    (m : List (String × String)) (k : String) :
    expiryOf (redisHset st key m) k = expiryOf st k := by
  by_cases hk : k = key
  · subst hk
    unfold redisHset expiryOf
    cases h : assocGet st k with
    | some e =>
      obtain ⟨f, t⟩ := e
      rw [assocGet_set_self]
      simp [h]
    | none =>
      rw [assocGet_set_self]
      simp [h]
  · unfold redisHset expiryOf
    cases h : assocGet st key with
    | some e =>
      obtain ⟨f, t⟩ := e
      rw [assocGet_set_ne _ _ _ _ hk]
    | none =>
      rw [assocGet_set_ne _ _ _ _ hk]

theorem assocGet_hset_present (st : RedisState) (key : String)
    (m : List (String × String)) :
    ∃ e, assocGet (redisHset st key m) key = some e := by
  unfold redisHset
  cases h : assocGet st key with
  | some e =>
    obtain ⟨f, t⟩ := e
    exact ⟨_, assocGet_set_self _ _ _⟩
  | none => exact ⟨_, assocGet_set_self _ _ _⟩

/-- C8 counterexample: create a job at time 0 and call `set_state` at time
5000.  The expiry deadline of the record is still `0 + JOB_TTL_SECONDS = 86400`,
not `5000 + JOB_TTL_SECONDS`: `set_state` performs only an `HSET` and never
refreshes the TTL, so the job does **not** expire a fixed TTL after the last
write. -/
theorem set_state_does_not_refresh_ttl_counterexample :
    expiryOf
        (set_state (create_job [] 0 "j1" "a.docx" []) 5000 "j1" "ingesting" none [])
        (jobKey "j1") = some JOB_TTL_SECONDS
      ∧ some JOB_TTL_SECONDS ≠ some ((5000 : Int) + JOB_TTL_SECONDS) := by
  exact ⟨by decide, by decide⟩

/-- C8 as amended: the expiry is set only at creation.  `create_job` at time
`now` sets the deadline to `now + JOB_TTL_SECONDS`, and every `set_state`
call leaves the expiry of every key unchanged — the job expires a fixed TTL
after its creation (the last `EXPIRE`), not after the last write. -/
theorem job_ttl_from_creation_only :
    (∀ (st : RedisState) (now : Int) (job_id new_status : String)
        (error : Option String) (extra : List (String × String)) (key : String),
      expiryOf (set_state st now job_id new_status error extra) key
        = expiryOf st key)
    ∧ ∀ (st : RedisState) (now : Int) (job_id original_filename : String)
        (kwargs : List (String × String)),
      expiryOf (create_job st now job_id original_filename kwargs) (jobKey job_id)
        = some (now + JOB_TTL_SECONDS) := by
  constructor
  · intro st now job_id new_status error extra key
    exact expiryOf_hset st (jobKey job_id) _ key
  · intro st now job_id original_filename kwargs
    obtain ⟨e, he⟩ := assocGet_hset_present st (jobKey job_id)
      ([("id", job_id), ("status", "uploaded"),
        ("original_filename", original_filename),
        ("created_at", toString now), ("updated_at", toString now)] ++ kwargs)
    simp only [create_job, redisExpire]
    rw [he]
    obtain ⟨f, t⟩ := e
    unfold expiryOf
    rw [assocGet_set_self]
    rfl

/-! ## Theorems about the retry helper -/

theorem retryGo_calls_le {α γ : Type} [LinearOrderedRing γ]
    (fn : Nat → CallOutcome α) (retryable : String → Bool)
    (base_delay max_delay : γ) (max_retries : Nat) :
    ∀ (l : List Nat) (last : Option PyErr),
      (retryGo fn retryable base_delay max_delay max_retries l last).calls
        ≤ l.length := by
  intro l
  induction l with
  | nil => intro last; cases last <;> simp [retryGo]
  | cons a rest ih =>
    intro last
    simp only [retryGo]
    cases fn a with
    | ok v => simp
    | exc e =>
      by_cases hr : retryable e.ty
      · by_cases ha : a = max_retries
        · simp [hr, ha]
        · have := ih (some e)
          simp only [hr, if_true, ha, if_false]
          simpa using Nat.succ_le_succ this
      · simp [hr]

theorem retryGo_all_fail {α γ : Type} [LinearOrderedRing γ]
    (fn : Nat → CallOutcome α) (retryable : String → Bool)
    (base_delay max_delay : γ) (max_retries : Nat) :
    ∀ (n a : Nat) (last : Option PyErr), a + n = max_retries →
      (∀ i, a ≤ i → i ≤ max_retries →
        ∃ e, fn i = .exc e ∧ retryable e.ty = true) →
      ∃ e, fn max_retries = .exc e ∧
        retryGo fn retryable base_delay max_delay max_retries
            (List.range' a (n + 1)) last =
          ⟨.error e, n + 1,
            (List.range' a n).map
              (fun i => min (base_delay * 2 ^ i) max_delay)⟩ := by
  intro n
  induction n with
  | zero =>
    intro a last h hf
    have ha : a = max_retries := by omega
    subst ha
    obtain ⟨e, he, hr⟩ := hf a le_rfl le_rfl
    exact ⟨e, he, by simp [List.range', retryGo, he, hr]⟩
  | succ n ih =>
    intro a last h hf
    obtain ⟨e0, he0, hr0⟩ := hf a le_rfl (by omega)
    have ha : a ≠ max_retries := by omega
    obtain ⟨e, he, hrec⟩ := ih (a + 1) (some e0) (by omega)
      (fun i h1 h2 => hf i (by omega) h2)
    refine ⟨e, he, ?_⟩
    rw [List.range'_succ a (n + 1) 1, retryGo, he0]
    simp only [hr0, if_true, ha, if_false]
    rw [hrec]
    rw [List.range'_succ a n 1]
    simp

/-- C9: `with_retry` calls `fn`; it makes at most `max_retries` additional
attempts beyond the first call; when every attempt fails with a retryable
exception it sleeps `min(base_delay * 2 ^ attempt, max_delay)` after each
attempt but the last (attempt counting from 0), makes exactly
`max_retries + 1` calls, and propagates the exception of the last attempt
unchanged; an exception whose type is not in the retryable set propagates
immediately, with no further attempts and no delay. -/
theorem with_retry_spec {α γ : Type} [LinearOrderedRing γ]
    (fn : Nat → CallOutcome α) (max_retries : Nat)
    (base_delay max_delay : γ) (retryable : String → Bool) :
    ((with_retry fn max_retries base_delay max_delay retryable).calls
        ≤ max_retries + 1)
    ∧ ((∀ i, i ≤ max_retries → ∃ e, fn i = .exc e ∧ retryable e.ty = true) →
        ∃ e, fn max_retries = .exc e
          ∧ (with_retry fn max_retries base_delay max_delay retryable).result
              = .error e
          ∧ (with_retry fn max_retries base_delay max_delay retryable).calls
              = max_retries + 1
          ∧ (with_retry fn max_retries base_delay max_delay retryable).sleeps
              = (List.range max_retries).map
                  (fun i => min (base_delay * 2 ^ i) max_delay))
    ∧ (∀ e, fn 0 = .exc e → retryable e.ty = false →
        with_retry fn max_retries base_delay max_delay retryable
          = ⟨.error e, 1, []⟩) := by
  refine ⟨?_, ?_, ?_⟩
  · simpa using
      retryGo_calls_le fn retryable base_delay max_delay max_retries
        (List.range (max_retries + 1)) none
  · intro hf
    obtain ⟨e, he, hgo⟩ :=
      retryGo_all_fail fn retryable base_delay max_delay max_retries
        max_retries 0 none (by omega) (fun i _ h2 => hf i h2)
    refine ⟨e, he, ?_⟩
    rw [with_retry, List.range_eq_range', hgo]
    simp [List.range_eq_range']
  · intro e h0 hr
    rw [with_retry, List.range_eq_range', List.range'_succ 0 max_retries 1]
    simp [retryGo, h0, hr]

/-- Witness for C9: three always-timing-out attempts with
`max_retries = 2`, `base_delay = 1`, `max_delay = 30` over `ℤ` produce
sleeps `[1, 2]`, three calls, and the last timeout error; a `ValueError`
with a timeout-only retryable set propagates immediately. -/
theorem with_retry_spec_witness :
    ((with_retry (α := Nat) (γ := Int)
        (fun _ => .exc ⟨"TimeoutError", "t"⟩) 2 1 30
        (fun ty => ty == "TimeoutError")).result = .error ⟨"TimeoutError", "t"⟩
      ∧ (with_retry (α := Nat) (γ := Int)
          (fun _ => .exc ⟨"TimeoutError", "t"⟩) 2 1 30
          (fun ty => ty == "TimeoutError")).calls = 3
      ∧ (with_retry (α := Nat) (γ := Int)
          (fun _ => .exc ⟨"TimeoutError", "t"⟩) 2 1 30
          (fun ty => ty == "TimeoutError")).sleeps = [1, 2])
    ∧ with_retry (α := Nat) (γ := Int)
        (fun _ => .exc ⟨"ValueError", "v"⟩) 2 1 30
        (fun ty => ty == "TimeoutError")
      = ⟨.error ⟨"ValueError", "v"⟩, 1, []⟩ := by
  constructor
  · obtain ⟨e, he, h1, h2, h3⟩ :=
      (with_retry_spec (α := Nat) (γ := Int)
        (fun _ => .exc ⟨"TimeoutError", "t"⟩) 2 1 30
        (fun ty => ty == "TimeoutError")).2.1
        (fun i _ => ⟨⟨"TimeoutError", "t"⟩, rfl, rfl⟩)
    injection he with he'
    subst he'
    refine ⟨h1, h2, ?_⟩
    rw [h3]
    decide
  · exact (with_retry_spec (α := Nat) (γ := Int)
      (fun _ => .exc ⟨"ValueError", "v"⟩) 2 1 30
      (fun ty => ty == "TimeoutError")).2.2 ⟨"ValueError", "v"⟩ rfl rfl

/-! ## Theorems about the rate limiter -/

theorem zadd_of_not_mem {τ : Type} [DecidableEq τ] (z : ZSet τ) (m s : τ)
    (h : ∀ p ∈ z, p.1 ≠ m) : zadd z m s = z ++ [(m, s)] := by
  induction z with
  | nil => rfl
  | cons p rest ih =>
    obtain ⟨pm, ps⟩ := p
    have hpm : pm ≠ m := h (pm, ps) (List.mem_cons_self _ _)
    simp [zadd, hpm, ih (fun q hq => h q (List.mem_cons_of_mem _ hq))]

theorem zrem_append_self {τ : Type} [DecidableEq τ] (z : ZSet τ) (m s : τ)
    (h : ∀ p ∈ z, p.1 ≠ m) : zrem (z ++ [(m, s)]) m = z := by
  unfold zrem
  rw [List.filter_append]
  have h1 : List.filter (fun p => decide (p.1 ≠ m)) z = z :=
    List.filter_eq_self.mpr (fun p hp => by simpa using h p hp)
  have h2 : List.filter (fun p => decide (p.1 ≠ m)) [(m, s)] = [] := by simp
  rw [h1, h2, List.append_nil]

/-- C10: sliding-window boundary, sequentially on one key with
`limit = 60`.  (a) When 60 requests were already admitted within the current
window (none prunable, all with members distinct from the fresh timestamp),
the 61st request is disallowed with `remaining = 0` and the window state is
exactly as before — the just-inserted entry is removed (no-op admission).
(b) When the window has elapsed so that every prior entry is pruned, the
next request is allowed with `remaining = 59`. -/
theorem rate_limiter_boundary {τ : Type} [LinearOrderedAddCommGroup τ]
    (z : ZSet τ) (window_seconds : τ) :
    (∀ now : τ, z.length = 60 →
      (∀ p ∈ z, ¬(0 ≤ p.2 ∧ p.2 ≤ now - window_seconds)) →
      (∀ p ∈ z, p.1 ≠ now) →
      rl_check z now 60 window_seconds = ((false, 0), z))
    ∧ ∀ now' : τ, (∀ p ∈ z, 0 ≤ p.2 ∧ p.2 ≤ now' - window_seconds) →
      rl_check z now' 60 window_seconds = ((true, 59), [(now', now')]) := by
  constructor
  · intro now hlen hwin hfresh
    have hz1 : zremrangebyscore z 0 (now - window_seconds) = z :=
      List.filter_eq_self.mpr (fun p hp => by
        simp only [decide_eq_true_eq]
        exact hwin p hp)
    have hz2 : zadd z now now = z ++ [(now, now)] :=
      zadd_of_not_mem z now now hfresh
    have hz3 : zrem (z ++ [(now, now)]) now = z :=
      zrem_append_self z now now hfresh
    simp only [rl_check]
    rw [hz1, hz2, hz3]
    simp [hlen]
  · intro now' hold
    have hz1 : zremrangebyscore z 0 (now' - window_seconds) = [] :=
      List.filter_eq_nil_iff.mpr (fun p hp => by simpa using hold p hp)
    simp only [rl_check]
    rw [hz1]
    simp [zadd]

/-- Witness for C10 over `ℤ` with a window of 600 time units: sixty
in-window requests at times 1..60, a 61st at time 61 (disallowed, state
unchanged), and a request at time 1000 after the window elapsed (allowed,
`remaining = 59`). -/
theorem rate_limiter_boundary_witness :
    rl_check ((List.range 60).map (fun i => ((i : Int) + 1, (i : Int) + 1)))
        61 60 600
      = ((false, 0), (List.range 60).map (fun i => ((i : Int) + 1, (i : Int) + 1)))
    ∧ rl_check ((List.range 60).map (fun i => ((i : Int) + 1, (i : Int) + 1)))
        1000 60 600
      = ((true, 59), [(1000, 1000)]) := by
  constructor
  · exact (rate_limiter_boundary _ 600).1 61 (by decide) (by decide) (by decide)
  · exact (rate_limiter_boundary _ 600).2 1000 (by decide)

/-- C7: `execute_plan` executes every action in order, continuing past
failures: `applied + failed` equals the number of actions; `used_fallback`
is true iff some fallback action succeeded; and `failed_issue_types` is
exactly the union of the `target_issues` of the failed non-fallback actions
(failed fallback actions contribute nothing). -/
theorem execute_plan_spec (l : List (ExecAction × Bool)) :
    (execute_plan l).applied + (execute_plan l).failed = l.length
    ∧ ((execute_plan l).used_fallback = true ↔
        ∃ p ∈ l, p.2 = true ∧ p.1.is_fallback = true)
    ∧ ∀ x, x ∈ (execute_plan l).failed_issue_types ↔
        ∃ p ∈ l, p.2 = false ∧ p.1.is_fallback = false
          ∧ x ∈ p.1.target_issues := by
  refine ⟨?_, ?_, ?_⟩
  · simpa using executePlanGo_counts l 0 0 [] false
  · rw [execute_plan, executePlanGo_used_fallback]
    simp [List.any_eq_true, Bool.and_eq_true]
  · intro x
    rw [execute_plan, executePlanGo_failed_types]
    simp

end Printfix
